import Mathlib

/-!
Verification of `jaxopt._src.eq_qp` (file `src/jaxopt/_src/eq_qp.py`), the
equality-constrained quadratic-programming solver
  minimize 0.5 xᵀQx + cᵀx  subject to  Ax = b.

Shallow embedding.  Tree-structured numeric values are specialised to flat
vectors `List ℚ`, dense matrices to `List (List ℚ)` (row major), which is the
default (`matvec_Q = None`, `matvec_A = None`) dense path of the solver; the
pluggable iterative linear solver (`linear_solve.solve_gmres`) is kept as an
abstract function argument, as the code treats it as an opaque callable.
Collaborator modules referenced by `eq_qp.py` but not present under `src/`
(`tree_util`, `linear_operator`, `implicit_diff`, `cvxpy_wrapper`) are
modelled from the spec; each such definition carries a doc comment saying so.
-/

/-- Vectors: flat tree-structured values specialised to lists of rationals. -/
abbrev Vec : Type := List ℚ

/-- Dense matrices, row major. -/
abbrev Mat : Type := List (List ℚ)

/-- Modelled from the spec: `tree_util.tree_add` (module `tree_util` is not
under `src/`); componentwise addition of tree-structured values (§6
"Tree-structured vector-space ops"). -/
def addL (a b : Vec) : Vec := List.zipWith (fun x y => x + y) a b

/-- Modelled from the spec: `tree_util.tree_sub`; componentwise subtraction. -/
def subL (a b : Vec) : Vec := List.zipWith (fun x y => x - y) a b

/-- Modelled from the spec: `tree_util.tree_negative`; componentwise negation. -/
def negL (a : Vec) : Vec := a.map (fun x => -x)

/-- Modelled from the spec: `tree_util.tree_vdot`; inner product of two
flat tree-structured values. -/
def dotL (a b : Vec) : ℚ := (List.zipWith (fun x y => x * y) a b).sum

/-- Dense matrix-vector product `dot(M, v)` (the default matvec of the
solver: `matvec_Q(Q, u) = dot(Q, u)`). -/
def mulVecL (M : Mat) (v : Vec) : Vec := M.map (fun row => dotL row v)

/-- Number of rows of a dense matrix (the dimension of its range). -/
def numRows (M : Mat) : ℕ := M.length

/-- Number of columns of a dense matrix (the dimension of its domain). -/
def numCols (M : Mat) : ℕ :=
  match M with
  | [] => 0
  | r :: _ => r.length

/-- A vector is zero iff all its components are zero. -/
def isZeroL (a : Vec) : Prop := ∀ q ∈ a, q = 0

instance (a : Vec) : Decidable (isZeroL a) :=
  inferInstanceAs (Decidable (∀ q ∈ a, q = 0))

/-- Sum of squares of the components of a vector. -/
def sumSqL (a : Vec) : ℚ := (a.map (fun x => x * x)).sum

/-- Modelled from the spec: a linear operator as produced by
`linear_operator._make_linear_operator` (module `linear_operator` is not under
`src/`): an opaque capability exposing a matvec and an adjoint matvec (§3
"Operator"). -/
structure LinOp where
  apply : Vec → Vec
  rmatvec : Vec → Vec

/-- Modelled from the spec: the joint `matvec_and_rmatvec(u, v)` capability of
an operator, returning `(apply u, adjoint v)` in one pass (§3 invariant:
mathematically equivalent to the two independent calls; it exists purely for
efficiency). -/
def LinOp.matvec_and_rmatvec (A : LinOp) (u v : Vec) : Vec × Vec :=
  (A.apply u, A.rmatvec v)

/-- A user-supplied matvec callable together with its adjoint.  Modelled from
the spec: for a custom callable the adjoint is derived by the external
reverse-mode differentiation engine (§6), which is out of scope; per §9 we
model it as an explicitly supplied second map.  Parameters are specialised to
dense matrices. -/
structure CustomOp where
  apply : Mat → Vec → Vec
  adjoint : Mat → Vec → Vec

/-- Modelled from the spec: `linear_operator._make_linear_operator` (§6
"Operator wrapping"): given `None` it wraps a dense matrix, with
`apply` = matrix-vector product and the adjoint using the transpose; given a
callable it uses the callable and its (externally derived) adjoint. -/
def _make_linear_operator : Option CustomOp → Mat → LinOp
  | none, M => { apply := mulVecL M, rmatvec := mulVecL M.transpose }
  | some f, p => { apply := f.apply p, rmatvec := f.adjoint p }

/-- The saddle-point matvec built inside `EqualityConstrainedQP.run`
(src/jaxopt/_src/eq_qp.py lines 120-123):

    def matvec(u):
        primal_u, dual_u = u
        mv_A, rmv_A = A.matvec_and_rmatvec(primal_u, dual_u)
        return (tree_util.tree_add(Q(primal_u), rmv_A), mv_A)

`Qapply` is the instantiated Q operator's matvec and `Ajoint` the instantiated
A operator's `matvec_and_rmatvec`. -/
def saddle_matvec (Qapply : Vec → Vec) (Ajoint : Vec → Vec → Vec × Vec)
    (u : Vec × Vec) : Vec × Vec :=
  let primal_u := u.1
  let dual_u := u.2
  let mv := Ajoint primal_u dual_u
  (addL (Qapply primal_u) mv.2, mv.1)

/-- Counters for operator applications performed by the saddle-point matvec. -/
structure OpCalls where
  q_calls : ℕ
  a_joint_calls : ℕ
deriving DecidableEq

/-- Effect-explicit translation of the same source lines 120-123: every
application of the `Q` operator and every `A.matvec_and_rmatvec` call threads
a counter.  The body performs, in order, exactly the calls the Python body
performs: one `A.matvec_and_rmatvec(primal_u, dual_u)` and one `Q(primal_u)`. -/
def saddle_matvec_traced (Qapply : Vec → Vec) (Ajoint : Vec → Vec → Vec × Vec)
    (u : Vec × Vec) (s : OpCalls) : (Vec × Vec) × OpCalls :=
  let primal_u := u.1
  let dual_u := u.2
  let step1 : (Vec × Vec) × OpCalls :=
    (Ajoint primal_u dual_u, { s with a_joint_calls := s.a_joint_calls + 1 })
  let mv := step1.1
  let step2 : Vec × OpCalls :=
    (Qapply primal_u, { step1.2 with q_calls := step1.2.q_calls + 1 })
  ((addL step2.1 mv.2, mv.1), step2.2)

/-- The objective function closed over by `_make_eq_qp_optimality_fun`
(source lines 44-48): `0.5 * vdot(x, Q x) + vdot(x, c)` with
`Q = matvec_Q(params_Q)`. -/
def obj_fun (matvec_Q : Mat → LinOp) (primal_var : Vec) (params_obj : Mat × Vec) : ℚ :=
  let Q := matvec_Q params_obj.1
  (1 / 2) * dotL primal_var (Q.apply primal_var) + dotL primal_var params_obj.2

/-- The equality-constraint function closed over by
`_make_eq_qp_optimality_fun` (source lines 50-53): `A(primal_var) - b` with
`A = matvec_A(params_A)`. -/
def eq_fun (matvec_A : Mat → LinOp) (primal_var : Vec) (params_eq : Mat × Vec) : Vec :=
  let A := matvec_A params_eq.1
  subL (A.apply primal_var) params_eq.2

/-- The optimality function built by `_make_eq_qp_optimality_fun`
(source lines 35-62).  The source composes `obj_fun` and `eq_fun` through
`idf.make_kkt_optimality_fun(obj_fun, eq_fun, ineq_fun=None)`; module
`implicit_diff` is not under `src/`, so the KKT assembly is modelled from the
spec (§4.1): the stationarity residual is the gradient of the unconstrained
objective, `∂/∂x [0.5 xᵀQx + cᵀx] = Qx + c`, plus the constraint-Jacobian
adjoint term `Aᵀλ` folded in by the generic assembly; the feasibility residual
is `eq_fun` itself; no inequality residual is contributed (`ineq_fun=None`),
so the third component is absent.  `params = (primal_var, eq_dual_var, None)`,
`params_obj = (params_Q, c)`, `params_eq = (params_A, b)`. -/
def _make_eq_qp_optimality_fun (matvec_Q matvec_A : Mat → LinOp)
    (params : Vec × Vec × Option Vec) (params_obj params_eq : Mat × Vec) :
    Vec × Vec × Option Vec :=
  let primal_var := params.1
  let dual_eq_var := params.2.1
  let Q := matvec_Q params_obj.1
  let A := matvec_A params_eq.1
  let stationarity := addL (addL (Q.apply primal_var) params_obj.2)
    (A.rmatvec dual_eq_var)
  let feasibility := eq_fun matvec_A primal_var params_eq
  (stationarity, feasibility, none)

/-- Shape-validation errors.  Modelled from the spec (§7(a)): the error is
descriptive, identifying the mismatched shapes. -/
inductive QPShapeError where
  | c_dim_mismatch (c_len q_cols : ℕ)
  | b_dim_mismatch (b_len a_rows : ℕ)
deriving DecidableEq

/-- Modelled from the spec: `cvxpy_wrapper._check_params` (module
`cvxpy_wrapper` is not under `src/`); §7(a): raised eagerly when c's space
disagrees with Q's domain or b's space disagrees with A's range. -/
def _check_params (params_obj params_eq : Mat × Vec) : Except QPShapeError Unit :=
  if params_obj.2.length ≠ numCols params_obj.1 then
    Except.error (QPShapeError.c_dim_mismatch params_obj.2.length (numCols params_obj.1))
  else if params_eq.2.length ≠ numRows params_eq.1 then
    Except.error (QPShapeError.b_dim_mismatch params_eq.2.length (numRows params_eq.1))
  else Except.ok ()

/-- The solver configuration (the `EqualityConstrainedQP` dataclass,
source lines 65-93): optional custom matvecs for Q and A, the pluggable
linear-system solver `solve(matvec, rhs, tol, maxiter)`, and the `tol` /
`maxiter` knobs.  The implicit-differentiation and jit wrappers applied in
`__post_init__` are external collaborators (out of scope per §1) and are not
part of the embedded solve path. -/
structure EqualityConstrainedQP where
  matvec_Q : Option CustomOp := none
  matvec_A : Option CustomOp := none
  solve : ((Vec × Vec) → (Vec × Vec)) → (Vec × Vec) → ℚ → ℕ → (Vec × Vec)
  maxiter : ℕ := 1000
  tol : ℚ := 1 / 100000

/-- The `_check_params` flag set in `__post_init__` (source line 142):
`self._check_params = self.matvec_Q is None and self.matvec_A is None`. -/
def EqualityConstrainedQP.check_params_flag (cfg : EqualityConstrainedQP) : Bool :=
  cfg.matvec_Q.isNone && cfg.matvec_A.isNone

/-- The wrapped `matvec_Q` after `__post_init__` (source line 144):
`self.matvec_Q = _make_linear_operator(self.matvec_Q)`. -/
def EqualityConstrainedQP.opQ (cfg : EqualityConstrainedQP) : Mat → LinOp :=
  _make_linear_operator cfg.matvec_Q

/-- The wrapped `matvec_A` after `__post_init__` (source line 145). -/
def EqualityConstrainedQP.opA (cfg : EqualityConstrainedQP) : Mat → LinOp :=
  _make_linear_operator cfg.matvec_A

/-- The solver's optimality function set in `__post_init__` (source line 147):
`self.optimality_fun = _make_eq_qp_optimality_fun(self.matvec_Q, self.matvec_A)`
(on the already-wrapped matvecs). -/
def EqualityConstrainedQP.optimality_fun (cfg : EqualityConstrainedQP)
    (params : Vec × Vec × Option Vec) (params_obj params_eq : Mat × Vec) :
    Vec × Vec × Option Vec :=
  _make_eq_qp_optimality_fun cfg.opQ cfg.opA params params_obj params_eq

/-- `EqualityConstrainedQP.run` (source lines 95-131):

    del init_params  # no warm start
    if self._check_params:
      _check_params(params_obj, params_eq)
    params_Q, c = params_obj
    params_A, b = params_eq
    Q = self.matvec_Q(params_Q)
    A = self.matvec_A(params_A)
    def matvec(u): ...
    minus_c = tree_util.tree_negative(c)
    primal, dual_eq = self.solve(matvec, (minus_c, b), tol=self.tol, maxiter=self.maxiter)
    return base.OptStep(params=base.KKTSolution(primal, dual_eq, None), state=None)

The raised validation error is modelled as `Except.error`; the returned
`KKTSolution(primal, dual_eq, None)` as the triple `(primal, dual_eq, none)`. -/
def EqualityConstrainedQP.run (cfg : EqualityConstrainedQP)
    (init_params : Option (Vec × Vec)) (params_obj params_eq : Mat × Vec) :
    Except QPShapeError (Vec × Vec × Option Vec) :=
  -- del init_params  (no warm start)
  match (if cfg.check_params_flag then _check_params params_obj params_eq
         else Except.ok ()) with
  | Except.error e => Except.error e
  | Except.ok _ =>
    let params_Q := params_obj.1
    let c := params_obj.2
    let params_A := params_eq.1
    let b := params_eq.2
    let Q := cfg.opQ params_Q
    let A := cfg.opA params_A
    let matvec := saddle_matvec Q.apply A.matvec_and_rmatvec
    let minus_c := negL c
    let sol := cfg.solve matvec (minus_c, b) cfg.tol cfg.maxiter
    Except.ok (sol.1, sol.2, none)

/-- Modelled from the spec: `tree_util.tree_l2_norm` (§6, §4.4): the Euclidean
norm of the flattened components of a residual tree `(stationarity,
feasibility, absent-inequality)`; the absent third component contributes no
leaves. -/
noncomputable def tree_l2_norm (t : Vec × Vec × Option Vec) : ℝ :=
  Real.sqrt ((sumSqL t.1 + sumSqL t.2.1 : ℚ))

/-- The flattened leaf list of a residual tree. -/
def flattenResidual (t : Vec × Vec × Option Vec) : Vec := t.1 ++ t.2.1

/-- `EqualityConstrainedQP.l2_optimality_error` (source lines 133-139):
computes the residual via `self.optimality_fun` and reduces it with
`tree_util.tree_l2_norm`. -/
noncomputable def EqualityConstrainedQP.l2_optimality_error
    (cfg : EqualityConstrainedQP) (params : Vec × Vec × Option Vec)
    (params_obj params_eq : Mat × Vec) : ℝ :=
  tree_l2_norm (cfg.optimality_fun params params_obj params_eq)

theorem addL_length (a b : Vec) : (addL a b).length = min a.length b.length := by
  simp [addL]

theorem subL_length (a b : Vec) : (subL a b).length = min a.length b.length := by
  simp [subL]

theorem mulVecL_length (M : Mat) (v : Vec) : (mulVecL M v).length = M.length := by
  simp [mulVecL]

theorem dotL_comm (a b : Vec) : dotL a b = dotL b a := by
  induction a generalizing b with
  | nil => cases b <;> simp [dotL]
  | cons x xs ih =>
    cases b with
    | nil => simp [dotL]
    | cons y ys =>
      simp only [dotL, List.zipWith_cons_cons, List.sum_cons] at *
      rw [mul_comm]
      exact congrArg _ (ih ys)

theorem dotL_addL_left (a b c : Vec) (h : a.length = b.length) :
    dotL (addL a b) c = dotL a c + dotL b c := by
  induction a generalizing b c with
  | nil =>
    cases b with
    | nil => simp [dotL, addL]
    | cons y ys => simp at h
  | cons x xs ih =>
    cases b with
    | nil => simp at h
    | cons y ys =>
      cases c with
      | nil => simp [dotL, addL]
      | cons z zs =>
        simp only [addL, dotL, List.zipWith_cons_cons, List.sum_cons] at *
        have hlen : xs.length = ys.length := by simpa using h
        have := ih ys zs hlen
        simp only [addL, dotL] at this
        rw [this]
        ring

theorem subL_eq_zero_iff (a b : Vec) (h : a.length = b.length) :
    isZeroL (subL a b) ↔ a = b := by
  induction a generalizing b with
  | nil =>
    cases b with
    | nil => simp [isZeroL, subL]
    | cons y ys => simp at h
  | cons x xs ih =>
    cases b with
    | nil => simp at h
    | cons y ys =>
      have hlen : xs.length = ys.length := by simpa using h
      simp only [subL, isZeroL, List.zipWith_cons_cons, List.mem_cons] at *
      constructor
      · intro hz
        have hx : x - y = 0 := hz (x - y) (Or.inl rfl)
        have hxs : xs = ys := by
          rw [← ih ys hlen]
          intro q hq
          exact hz q (Or.inr hq)
        have hxy : x = y := by linarith
        rw [hxy, hxs]
      · intro he
        have hx : x = y := by
          exact (List.cons.injEq x xs y ys ▸ he).1
        have hxs : xs = ys := by
          exact (List.cons.injEq x xs y ys ▸ he).2
        intro q hq
        rcases hq with hq | hq
        · rw [hq, hx]; ring
        · subst hxs
          exact (ih xs hlen).mpr rfl q hq

theorem sumSqL_append (a b : Vec) : sumSqL (a ++ b) = sumSqL a + sumSqL b := by
  simp [sumSqL]

theorem sumSqL_nonneg (a : Vec) : 0 ≤ sumSqL a := by
  induction a with
  | nil => simp [sumSqL]
  | cons x xs ih =>
    simp only [sumSqL, List.map_cons, List.sum_cons] at *
    nlinarith [mul_self_nonneg x]

/-- The default dense operator wrapper (`matvec_Q = None` / `matvec_A = None`). -/
def denseOp : Mat → LinOp := _make_linear_operator none

/-- C1: for every KKT point `params = (x, λ, None)` and problem instance
`params_obj = (params_Q, c)`, `params_eq = (params_A, b)`, the residual of the
optimality function built by `_make_eq_qp_optimality_fun` has stationarity
component `Q(x) + c + Aᵀ(λ)` and feasibility component `A(x) − b`, and it is
zero exactly when the point satisfies the KKT conditions under the sign
convention `Qx + c + Aᵀλ = 0` (together with `Ax = b`). -/
theorem optimality_fun_is_kkt_residual (matvec_Q matvec_A : Mat → LinOp)
    (x lam c b : Vec) (pQ pA : Mat)
    (hlen : ((matvec_A pA).apply x).length = b.length) :
    (_make_eq_qp_optimality_fun matvec_Q matvec_A (x, lam, none) (pQ, c) (pA, b)).1
      = addL (addL ((matvec_Q pQ).apply x) c) ((matvec_A pA).rmatvec lam) ∧
    (_make_eq_qp_optimality_fun matvec_Q matvec_A (x, lam, none) (pQ, c) (pA, b)).2.1
      = subL ((matvec_A pA).apply x) b ∧
    ((isZeroL (_make_eq_qp_optimality_fun matvec_Q matvec_A
          (x, lam, none) (pQ, c) (pA, b)).1 ∧
      isZeroL (_make_eq_qp_optimality_fun matvec_Q matvec_A
          (x, lam, none) (pQ, c) (pA, b)).2.1) ↔
     (isZeroL (addL (addL ((matvec_Q pQ).apply x) c) ((matvec_A pA).rmatvec lam)) ∧
      (matvec_A pA).apply x = b)) := by
  refine ⟨rfl, rfl, ?_⟩
  have hsub := subL_eq_zero_iff ((matvec_A pA).apply x) b hlen
  constructor
  · intro hz
    exact ⟨hz.1, hsub.mp hz.2⟩
  · intro hk
    exact ⟨hk.1, hsub.mpr hk.2⟩

/-- Witness for C1 on the spec's worked example: `Q = [[2,0],[0,2]]`,
`c = [0,0]`, `A = [[1,1]]`, `b = [1]`, at the KKT point
`x = [1/2, 1/2]`, `λ = [-1]`. -/
theorem optimality_fun_is_kkt_residual_witness :
    ((denseOp [[1, 1]]).apply [1/2, 1/2]).length = ([1] : Vec).length ∧
    ((_make_eq_qp_optimality_fun denseOp denseOp
        ([1/2, 1/2], [-1], none) ([[2, 0], [0, 2]], [0, 0]) ([[1, 1]], [1])).1
      = addL (addL ((denseOp [[2, 0], [0, 2]]).apply [1/2, 1/2]) [0, 0])
          ((denseOp [[1, 1]]).rmatvec [-1]) ∧
    (_make_eq_qp_optimality_fun denseOp denseOp
        ([1/2, 1/2], [-1], none) ([[2, 0], [0, 2]], [0, 0]) ([[1, 1]], [1])).2.1
      = subL ((denseOp [[1, 1]]).apply [1/2, 1/2]) [1] ∧
    ((isZeroL (_make_eq_qp_optimality_fun denseOp denseOp
          ([1/2, 1/2], [-1], none) ([[2, 0], [0, 2]], [0, 0]) ([[1, 1]], [1])).1 ∧
      isZeroL (_make_eq_qp_optimality_fun denseOp denseOp
          ([1/2, 1/2], [-1], none) ([[2, 0], [0, 2]], [0, 0]) ([[1, 1]], [1])).2.1) ↔
     (isZeroL (addL (addL ((denseOp [[2, 0], [0, 2]]).apply [1/2, 1/2]) [0, 0])
          ((denseOp [[1, 1]]).rmatvec [-1])) ∧
      (denseOp [[1, 1]]).apply [1/2, 1/2] = [1]))) :=
  ⟨by decide,
   optimality_fun_is_kkt_residual denseOp denseOp [1/2, 1/2] [-1] [0, 0] [1]
     [[2, 0], [0, 2]] [[1, 1]] (by decide)⟩

/-- C7: the residual returned by the optimality function has exactly the same
tree structure as the input KKT point `params = (x, λ, none)`: the stationarity
component has the length of `x`, the feasibility component the length of `λ`,
and the third (inequality) component is absent, like the input's. -/
theorem optimality_fun_shape_matches (matvec_Q matvec_A : Mat → LinOp)
    (x lam c b : Vec) (pQ pA : Mat)
    (h1 : ((matvec_Q pQ).apply x).length = x.length)
    (h2 : c.length = x.length)
    (h3 : ((matvec_A pA).rmatvec lam).length = x.length)
    (h4 : ((matvec_A pA).apply x).length = lam.length)
    (h5 : b.length = lam.length) :
    (_make_eq_qp_optimality_fun matvec_Q matvec_A (x, lam, none) (pQ, c) (pA, b)).1.length
      = x.length ∧
    (_make_eq_qp_optimality_fun matvec_Q matvec_A (x, lam, none) (pQ, c) (pA, b)).2.1.length
      = lam.length ∧
    (_make_eq_qp_optimality_fun matvec_Q matvec_A (x, lam, none) (pQ, c) (pA, b)).2.2
      = (none : Option Vec) := by
  refine ⟨?_, ?_, rfl⟩
  · show (addL (addL ((matvec_Q pQ).apply x) c) ((matvec_A pA).rmatvec lam)).length
      = x.length
    rw [addL_length, addL_length, h1, h2, h3]
    simp
  · show (subL ((matvec_A pA).apply x) b).length = lam.length
    rw [subL_length, h4, h5]
    simp

/-- Witness for C7 at the dense instance `Q = [[2,0],[0,2]]`, `A = [[1,1]]`,
`x = [1,2]`, `λ = [3]`, `c = [0,0]`, `b = [1]`. -/
theorem optimality_fun_shape_matches_witness :
    (_make_eq_qp_optimality_fun denseOp denseOp
        ([1, 2], [3], none) ([[2, 0], [0, 2]], [0, 0]) ([[1, 1]], [1])).1.length
      = ([1, 2] : Vec).length ∧
    (_make_eq_qp_optimality_fun denseOp denseOp
        ([1, 2], [3], none) ([[2, 0], [0, 2]], [0, 0]) ([[1, 1]], [1])).2.1.length
      = ([3] : Vec).length ∧
    (_make_eq_qp_optimality_fun denseOp denseOp
        ([1, 2], [3], none) ([[2, 0], [0, 2]], [0, 0]) ([[1, 1]], [1])).2.2
      = (none : Option Vec) :=
  optimality_fun_shape_matches denseOp denseOp [1, 2] [3] [0, 0] [1]
    [[2, 0], [0, 2]] [[1, 1]]
    (by decide) (by decide) (by decide) (by decide) (by decide)

/-- C2: for every KKT pair `(primal_u, dual_u)`, the saddle-point matvec built
inside `run` maps it to `(Q(primal_u) + Aᵀ(dual_u), A(primal_u))`, obtained
with exactly one joint `matvec_and_rmatvec` call on `A` and exactly one matvec
call on `Q` (the effect-explicit translation bumps each counter exactly once
and computes the same value); the second (dual) output component does not
depend on `dual_u`. -/
theorem saddle_matvec_spec (Qapply : Vec → Vec) (Ajoint : Vec → Vec → Vec × Vec)
    (Aapp Aadj : Vec → Vec) (p d : Vec)
    (hc : ∀ u v, Ajoint u v = (Aapp u, Aadj v)) :
    saddle_matvec Qapply Ajoint (p, d) = (addL (Qapply p) (Aadj d), Aapp p) ∧
    (∀ d2 : Vec, (saddle_matvec Qapply Ajoint (p, d2)).2
        = (saddle_matvec Qapply Ajoint (p, d)).2) ∧
    (∀ s : OpCalls, (saddle_matvec_traced Qapply Ajoint (p, d) s).2
        = OpCalls.mk (s.q_calls + 1) (s.a_joint_calls + 1)) ∧
    (saddle_matvec_traced Qapply Ajoint (p, d) (OpCalls.mk 0 0)).1
        = saddle_matvec Qapply Ajoint (p, d) := by
  refine ⟨?_, ?_, ?_, rfl⟩
  · simp [saddle_matvec, hc]
  · intro d2
    simp [saddle_matvec, hc]
  · intro s
    simp [saddle_matvec_traced]

/-- Witness for C2 with the dense operators `Q = [[2,0],[0,2]]`,
`A = [[1,1]]` at `primal_u = [1,2]`, `dual_u = [3]` (and a second dual
`[5]` for the independence conjunct). -/
theorem saddle_matvec_spec_witness :
    saddle_matvec (mulVecL [[2, 0], [0, 2]])
        (fun u v => (mulVecL [[1, 1]] u, mulVecL (List.transpose [[1, 1]]) v))
        ([1, 2], [3])
      = (addL (mulVecL [[2, 0], [0, 2]] [1, 2])
          (mulVecL (List.transpose [[1, 1]]) [3]), mulVecL [[1, 1]] [1, 2]) ∧
    (saddle_matvec (mulVecL [[2, 0], [0, 2]])
        (fun u v => (mulVecL [[1, 1]] u, mulVecL (List.transpose [[1, 1]]) v))
        ([1, 2], [5])).2
      = (saddle_matvec (mulVecL [[2, 0], [0, 2]])
        (fun u v => (mulVecL [[1, 1]] u, mulVecL (List.transpose [[1, 1]]) v))
        ([1, 2], [3])).2 ∧
    (saddle_matvec_traced (mulVecL [[2, 0], [0, 2]])
        (fun u v => (mulVecL [[1, 1]] u, mulVecL (List.transpose [[1, 1]]) v))
        ([1, 2], [3]) (OpCalls.mk 0 0)).2 = OpCalls.mk 1 1 ∧
    (saddle_matvec_traced (mulVecL [[2, 0], [0, 2]])
        (fun u v => (mulVecL [[1, 1]] u, mulVecL (List.transpose [[1, 1]]) v))
        ([1, 2], [3]) (OpCalls.mk 0 0)).1
      = saddle_matvec (mulVecL [[2, 0], [0, 2]])
        (fun u v => (mulVecL [[1, 1]] u, mulVecL (List.transpose [[1, 1]]) v))
        ([1, 2], [3]) := by
  have h := saddle_matvec_spec (mulVecL [[2, 0], [0, 2]])
    (fun u v => (mulVecL [[1, 1]] u, mulVecL (List.transpose [[1, 1]]) v))
    (mulVecL [[1, 1]]) (mulVecL (List.transpose [[1, 1]]))
    [1, 2] [3] (fun u v => rfl)
  exact ⟨h.1, h.2.1 [5], h.2.2.1 (OpCalls.mk 0 0), h.2.2.2⟩

/-- Modelled from the spec: the tree inner product over KKT pairs
(`tree_util.tree_vdot` on a `(primal, dual)` pair; §6): the sum of the
componentwise inner products. -/
def innerKKT (u v : Vec × Vec) : ℚ := dotL u.1 v.1 + dotL u.2 v.2

/-- C4: whenever the Q operator is symmetric (self-adjoint for the tree inner
product) and the A operator's joint call returns its matvec and a correct
adjoint, the saddle-point operator built inside `run` is self-adjoint:
`⟨matvec(p), q⟩ = ⟨p, matvec(q)⟩` for the tree inner product.  The
self-adjointness of `Q` and the adjoint correctness of `A` are assumed at the
inner-product instances the two sides produce; the length hypotheses say the
operator outputs live in the primal space. -/
theorem saddle_matvec_self_adjoint (Qapply : Vec → Vec)
    (Ajoint : Vec → Vec → Vec × Vec) (Aapp Aadj : Vec → Vec)
    (p1 p2 q1 q2 : Vec)
    (hc : ∀ u v, Ajoint u v = (Aapp u, Aadj v))
    (hQ : dotL (Qapply p1) q1 = dotL p1 (Qapply q1))
    (hA1 : dotL (Aapp p1) q2 = dotL p1 (Aadj q2))
    (hA2 : dotL (Aapp q1) p2 = dotL q1 (Aadj p2))
    (hl1 : (Qapply p1).length = (Aadj p2).length)
    (hl2 : (Qapply q1).length = (Aadj q2).length) :
    innerKKT (saddle_matvec Qapply Ajoint (p1, p2)) (q1, q2)
      = innerKKT (p1, p2) (saddle_matvec Qapply Ajoint (q1, q2)) := by
  simp only [saddle_matvec, innerKKT, hc]
  rw [dotL_addL_left _ _ _ hl1]
  rw [dotL_comm p1 (addL (Qapply q1) (Aadj q2))]
  rw [dotL_addL_left _ _ _ hl2]
  have e1 : dotL (Qapply p1) q1 = dotL (Qapply q1) p1 := by
    rw [hQ, dotL_comm]
  have e2 : dotL (Aapp p1) q2 = dotL (Aadj q2) p1 := by
    rw [hA1, dotL_comm]
  have e3 : dotL (Aadj p2) q1 = dotL p2 (Aapp q1) := by
    rw [dotL_comm (Aadj p2) q1, ← hA2, dotL_comm]
  rw [e1, e2, e3]
  ring

/-- Witness for C4 at the symmetric dense instance `Q = [[2,0],[0,2]]`,
`A = [[1,1]]`, `p = ([1,2],[3])`, `q = ([4,5],[6])`. -/
theorem saddle_matvec_self_adjoint_witness :
    innerKKT (saddle_matvec (mulVecL [[2, 0], [0, 2]])
        (fun u v => (mulVecL [[1, 1]] u, mulVecL (List.transpose [[1, 1]]) v))
        ([1, 2], [3])) ([4, 5], [6])
      = innerKKT ([1, 2], [3])
        (saddle_matvec (mulVecL [[2, 0], [0, 2]])
          (fun u v => (mulVecL [[1, 1]] u, mulVecL (List.transpose [[1, 1]]) v))
          ([4, 5], [6])) :=
  saddle_matvec_self_adjoint (mulVecL [[2, 0], [0, 2]])
    (fun u v => (mulVecL [[1, 1]] u, mulVecL (List.transpose [[1, 1]]) v))
    (mulVecL [[1, 1]]) (mulVecL (List.transpose [[1, 1]]))
    [1, 2] [3] [4, 5] [6] (fun u v => rfl)
    (by norm_num [dotL, mulVecL])
    (by norm_num [dotL, mulVecL, show List.transpose [[(1:ℚ), 1]] = [[1], [1]] from rfl])
    (by norm_num [dotL, mulVecL, show List.transpose [[(1:ℚ), 1]] = [[1], [1]] from rfl])
    (by decide) (by decide)

/-- C5: `l2_optimality_error` returns a single non-negative scalar equal to
the Euclidean norm of the flattened components of the residual computed by the
optimality function at those arguments. -/
theorem l2_optimality_error_is_residual_norm (cfg : EqualityConstrainedQP)
    (params : Vec × Vec × Option Vec) (params_obj params_eq : Mat × Vec) :
    cfg.l2_optimality_error params params_obj params_eq
      = Real.sqrt
          ((sumSqL (flattenResidual
            (cfg.optimality_fun params params_obj params_eq)) : ℚ)) ∧
    0 ≤ cfg.l2_optimality_error params params_obj params_eq := by
  constructor
  · show tree_l2_norm (cfg.optimality_fun params params_obj params_eq) = _
    rw [tree_l2_norm, flattenResidual, sumSqL_append]
  · exact Real.sqrt_nonneg _

/-- Helper: on any call that passes (or skips) validation, `run` reduces to
invoking the configured solver on the saddle-point operator with right-hand
side `(−c, b)` and packaging the result. -/
theorem run_solve_of_precheck (cfg : EqualityConstrainedQP)
    (init_params : Option (Vec × Vec)) (params_obj params_eq : Mat × Vec)
    (h : cfg.check_params_flag = false ∨
         _check_params params_obj params_eq = Except.ok ()) :
    cfg.run init_params params_obj params_eq =
      Except.ok
        ((cfg.solve
            (saddle_matvec (cfg.opQ params_obj.1).apply
              (cfg.opA params_eq.1).matvec_and_rmatvec)
            (negL params_obj.2, params_eq.2) cfg.tol cfg.maxiter).1,
         (cfg.solve
            (saddle_matvec (cfg.opQ params_obj.1).apply
              (cfg.opA params_eq.1).matvec_and_rmatvec)
            (negL params_obj.2, params_eq.2) cfg.tol cfg.maxiter).2,
         none) := by
  rcases h with h | h
  · simp [EqualityConstrainedQP.run, h]
  · by_cases hf : cfg.check_params_flag
    · simp [EqualityConstrainedQP.run, hf, h]
    · simp [EqualityConstrainedQP.run, hf]

/-- C3: `run` instantiates the Q and A operators from the raw parameters,
forms the right-hand side `(−c, b)`, invokes the configured pluggable linear
solver on the saddle-point operator with the configured `tol` and `maxiter`,
and returns the solver's `(primal, dual_eq)` pair packaged as the triple
`(primal, dual_eq, None)` with the inequality dual always absent. -/
theorem run_orchestration (cfg : EqualityConstrainedQP)
    (init_params : Option (Vec × Vec)) (params_obj params_eq : Mat × Vec)
    (h : cfg.check_params_flag = false ∨
         _check_params params_obj params_eq = Except.ok ()) :
    cfg.run init_params params_obj params_eq =
      Except.ok
        ((cfg.solve
            (saddle_matvec (cfg.opQ params_obj.1).apply
              (cfg.opA params_eq.1).matvec_and_rmatvec)
            (negL params_obj.2, params_eq.2) cfg.tol cfg.maxiter).1,
         (cfg.solve
            (saddle_matvec (cfg.opQ params_obj.1).apply
              (cfg.opA params_eq.1).matvec_and_rmatvec)
            (negL params_obj.2, params_eq.2) cfg.tol cfg.maxiter).2,
         none) :=
  run_solve_of_precheck cfg init_params params_obj params_eq h

/-- A concrete pluggable solver used in witnesses: returns the right-hand side. -/
def exSolve : ((Vec × Vec) → (Vec × Vec)) → (Vec × Vec) → ℚ → ℕ → (Vec × Vec) :=
  fun _ rhs _ _ => rhs

/-- A concrete all-default configuration (dense Q and A) used in witnesses. -/
def exCfgDense : EqualityConstrainedQP := { solve := exSolve }

/-- Witness for C3: the dense default configuration on the spec's worked
example `Q = [[2,0],[0,2]]`, `c = [0,0]`, `A = [[1,1]]`, `b = [1]` (validation
passes). -/
theorem run_orchestration_witness :
    exCfgDense.run none ([[2, 0], [0, 2]], [0, 0]) ([[1, 1]], [1]) =
      Except.ok
        ((exCfgDense.solve
            (saddle_matvec (exCfgDense.opQ [[2, 0], [0, 2]]).apply
              (exCfgDense.opA [[1, 1]]).matvec_and_rmatvec)
            (negL [0, 0], [1]) exCfgDense.tol exCfgDense.maxiter).1,
         (exCfgDense.solve
            (saddle_matvec (exCfgDense.opQ [[2, 0], [0, 2]]).apply
              (exCfgDense.opA [[1, 1]]).matvec_and_rmatvec)
            (negL [0, 0], [1]) exCfgDense.tol exCfgDense.maxiter).2,
         none) :=
  run_orchestration exCfgDense none ([[2, 0], [0, 2]], [0, 0]) ([[1, 1]], [1])
    (Or.inr rfl)

/-- C6: when validation is enabled and the shapes mismatch, `run` returns the
descriptive shape-mismatch error, and does so before invoking the iterative
solver: the outcome is the same error for every possible pluggable solver, so
the solver (and with it any linear-algebra work) is never consulted. -/
theorem run_shape_mismatch_raises (cfg : EqualityConstrainedQP)
    (init_params : Option (Vec × Vec)) (params_obj params_eq : Mat × Vec)
    (e : QPShapeError)
    (hflag : cfg.check_params_flag = true)
    (herr : _check_params params_obj params_eq = Except.error e) :
    cfg.run init_params params_obj params_eq = Except.error e ∧
    ∀ solve2, EqualityConstrainedQP.run { cfg with solve := solve2 }
        init_params params_obj params_eq = Except.error e := by
  have hflag2 : ∀ solve2,
      (EqualityConstrainedQP.check_params_flag { cfg with solve := solve2 })
        = cfg.check_params_flag := fun _ => rfl
  constructor
  · simp [EqualityConstrainedQP.run, hflag, herr]
  · intro solve2
    simp [EqualityConstrainedQP.run, hflag2, hflag, herr]

/-- Witness for C6: the spec's shape-mismatch scenario — `c` has 3 components
while `Q` operates on 2-vectors; validation is on (both matvecs default). -/
theorem run_shape_mismatch_raises_witness :
    exCfgDense.run none ([[2, 0], [0, 2]], [0, 0, 0]) ([[1, 1]], [1])
      = Except.error (QPShapeError.c_dim_mismatch 3 2) ∧
    EqualityConstrainedQP.run
        { exCfgDense with solve := fun _ rhs _ _ => (addL rhs.1 rhs.1, rhs.2) }
        none ([[2, 0], [0, 2]], [0, 0, 0]) ([[1, 1]], [1])
      = Except.error (QPShapeError.c_dim_mismatch 3 2) := by
  have h := run_shape_mismatch_raises exCfgDense none
    ([[2, 0], [0, 2]], [0, 0, 0]) ([[1, 1]], [1])
    (QPShapeError.c_dim_mismatch 3 2) rfl rfl
  exact ⟨h.1, h.2 (fun _ rhs _ _ => (addL rhs.1 rhs.1, rhs.2))⟩

/-- C8: `run(init_params, params_obj, params_eq)` returns the same result as
`run(None, params_obj, params_eq)`: the `init_params` argument is deleted on
entry (`del init_params`, no warm start) and never influences the solve. -/
theorem run_ignores_init_params (cfg : EqualityConstrainedQP)
    (init_params : Option (Vec × Vec)) (params_obj params_eq : Mat × Vec) :
    cfg.run init_params params_obj params_eq
      = cfg.run none params_obj params_eq := rfl

/-- Two sequential invocations of `run` on the same configuration and the same
problem instance (the embedding of `run` is a pure function of the
configuration it reads: the source method assigns to no attribute, so the
second call starts from the very same solver state). -/
def run_twice (cfg : EqualityConstrainedQP) (init_params : Option (Vec × Vec))
    (params_obj params_eq : Mat × Vec) :
    Except QPShapeError (Vec × Vec × Option Vec) ×
      Except QPShapeError (Vec × Vec × Option Vec) :=
  let first := cfg.run init_params params_obj params_eq
  let second := cfg.run init_params params_obj params_eq
  (first, second)

/-- C9: calling `run` twice with identical problem instances yields identical
results; no hidden state carries over between the calls. -/
theorem run_idempotent (cfg : EqualityConstrainedQP)
    (init_params : Option (Vec × Vec)) (params_obj params_eq : Mat × Vec) :
    (run_twice cfg init_params params_obj params_eq).1
      = (run_twice cfg init_params params_obj params_eq).2 := rfl

/-- C10: shape validation is performed iff both `matvec_Q` and `matvec_A` were
left unset (`None`) at construction; supplying a custom matvec for either one
disables parameter validation for the whole call — `run` then goes straight to
the solve and never raises, even when the still-dense operand's parameters
mismatch. -/
theorem check_params_flag_policy (cfg : EqualityConstrainedQP)
    (init_params : Option (Vec × Vec)) (params_obj params_eq : Mat × Vec) :
    (cfg.check_params_flag = true ↔
      (cfg.matvec_Q = none ∧ cfg.matvec_A = none)) ∧
    ((cfg.matvec_Q ≠ none ∨ cfg.matvec_A ≠ none) →
      cfg.run init_params params_obj params_eq =
        Except.ok
          ((cfg.solve
              (saddle_matvec (cfg.opQ params_obj.1).apply
                (cfg.opA params_eq.1).matvec_and_rmatvec)
              (negL params_obj.2, params_eq.2) cfg.tol cfg.maxiter).1,
           (cfg.solve
              (saddle_matvec (cfg.opQ params_obj.1).apply
                (cfg.opA params_eq.1).matvec_and_rmatvec)
              (negL params_obj.2, params_eq.2) cfg.tol cfg.maxiter).2,
           none)) := by
  constructor
  · cases hq : cfg.matvec_Q <;> cases ha : cfg.matvec_A <;>
      simp [EqualityConstrainedQP.check_params_flag, hq, ha]
  · intro h
    have hflag : cfg.check_params_flag = false := by
      cases hq : cfg.matvec_Q <;> cases ha : cfg.matvec_A <;>
        simp [EqualityConstrainedQP.check_params_flag, hq, ha] <;>
        · rcases h with h | h <;> simp [hq, ha] at h
    exact run_solve_of_precheck cfg init_params params_obj params_eq (Or.inl hflag)

/-- A concrete user-supplied matvec (with its adjoint) used in witnesses. -/
def exCustomQ : CustomOp :=
  { apply := fun p u => mulVecL p u, adjoint := fun p v => mulVecL p.transpose v }

/-- A configuration with a custom `matvec_Q` and the default dense `matvec_A`,
used in witnesses. -/
def exCfgCustomQ : EqualityConstrainedQP :=
  { matvec_Q := some exCustomQ, solve := exSolve }

/-- Witness for C10: with a custom `matvec_Q` (and `matvec_A` still dense),
the validation flag is off, and `run` proceeds straight to the solver even
though `b` has 2 components while the dense `A = [[1,1]]` has a single row —
a mismatch that enabled validation would reject. -/
theorem check_params_flag_policy_witness :
    (exCfgCustomQ.check_params_flag = true ↔
      (exCfgCustomQ.matvec_Q = none ∧ exCfgCustomQ.matvec_A = none)) ∧
    exCfgCustomQ.run none ([[2, 0], [0, 2]], [0, 0]) ([[1, 1]], [1, 2]) =
      Except.ok
        ((exCfgCustomQ.solve
            (saddle_matvec (exCfgCustomQ.opQ [[2, 0], [0, 2]]).apply
              (exCfgCustomQ.opA [[1, 1]]).matvec_and_rmatvec)
            (negL [0, 0], [1, 2]) exCfgCustomQ.tol exCfgCustomQ.maxiter).1,
         (exCfgCustomQ.solve
            (saddle_matvec (exCfgCustomQ.opQ [[2, 0], [0, 2]]).apply
              (exCfgCustomQ.opA [[1, 1]]).matvec_and_rmatvec)
            (negL [0, 0], [1, 2]) exCfgCustomQ.tol exCfgCustomQ.maxiter).2,
         none) := by
  have h := check_params_flag_policy exCfgCustomQ none
    ([[2, 0], [0, 2]], [0, 0]) ([[1, 1]], [1, 2])
  exact ⟨h.1, h.2 (Or.inl (fun hq => Option.noConfusion hq))⟩
